import Mathlib

/-!
Shallow embedding of the icrc1 helper utility (helper.py, testing/helper.py,
tests/helper_test.py, testing/tests/helper_test.py) and proofs about it.

Python strings are modelled as lists of characters, Python dicts as
association lists (insertion ordered, as Python dicts are), the filesystem
as an association list from path to file content (or as an existence
predicate on paths where only existence is inspected), and subprocess exit
statuses as an environment function from command to Bool (true = exit 0).
-/

/-- A Python string, modelled as its list of characters. -/
abbrev PyStr := List Char

/-- A Python value stored in a canister metadata dict: either a string or
Python None (modelled as Option.none). -/
abbrev PyVal := Option PyStr

/-- Python dict assignment d[k] = v: replaces the value in place if the key
is present (keeping its position, as Python dicts do), else appends. -/
def dictSet {α β : Type} [DecidableEq α] : List (α × β) → α → β → List (α × β)
  | [], k, v => [(k, v)]
  | (k', v') :: rest, k, v =>
    if k' = k then (k, v) :: rest else (k', v') :: dictSet rest k v

/-- Python dict read d.get(k): first (and only, for a well-formed dict)
binding of the key. -/
def dictLookup {α β : Type} [DecidableEq α] : List (α × β) → α → Option β
  | [], _ => none
  | (k', v') :: rest, k => if k' = k then some v' else dictLookup rest k

theorem dictLookup_dictSet {α β : Type} [DecidableEq α]
    (d : List (α × β)) (k : α) (v : β) :
    dictLookup (dictSet d k v) k = some v := by
  induction d with
  | nil => simp [dictSet, dictLookup]
  | cons hd tl ih =>
    by_cases h : hd.1 = k
    · simp [dictSet, dictLookup, h]
    · simp [dictSet, dictLookup, h, ih]

/-- Whether pat is a prefix of s (the scanning test of str.replace). -/
def startsWith : PyStr → PyStr → Bool
  | [], _ => true
  | _ :: _, [] => false
  | p :: ps, c :: cs => p = c && startsWith ps cs

theorem startsWith_refl (l : PyStr) : startsWith l l = true := by
  induction l with
  | nil => rfl
  | cons c cs ih => simp [startsWith, ih]

/-- Whether pat occurs as a contiguous substring of s (Python `pat in s`). -/
def occursIn (pat : PyStr) : PyStr → Bool
  | [] => pat.isEmpty
  | c :: rest => startsWith pat (c :: rest) || occursIn pat rest

/-- Python str.replace(pat, rep): replaces every non-overlapping occurrence
of pat in the subject, scanning left to right.  The empty-pattern case
follows Python (rep is inserted at every position), though the helper only
ever calls it with nonempty patterns of the form "\x7bkey\x7d". -/
def pyReplace (pat rep : PyStr) : PyStr → PyStr
  | [] => if pat.isEmpty then rep else []
  | c :: rest =>
    if h : pat.isEmpty = false ∧ startsWith pat (c :: rest) = true then
      rep ++ pyReplace pat rep (List.drop pat.length (c :: rest))
    else if pat.isEmpty then
      rep ++ (c :: pyReplace pat rep rest)
    else
      c :: pyReplace pat rep rest
termination_by s => s.length
decreasing_by
  · have hlen : 0 < pat.length := by
      cases pat with
      | nil => simp at h
      | cons p ps => simp
    simp only [List.length_drop, List.length_cons]
    omega
  · simp only [List.length_cons]
    omega
  · simp only [List.length_cons]
    omega

theorem pyReplace_self (p : Char) (ps rep : PyStr) :
    pyReplace (p :: ps) rep (p :: ps) = rep := by
  rw [pyReplace]
  have h1 : (p :: ps).isEmpty = false := rfl
  have h2 : startsWith (p :: ps) (p :: ps) = true := startsWith_refl _
  rw [dif_pos ⟨h1, h2⟩]
  have hdrop : List.drop (p :: ps).length (p :: ps) = [] := List.drop_length _
  rw [hdrop, pyReplace, if_neg (by simp)]
  simp

/-- The placeholder token for a key, the f-string "\x7b" + key + "\x7d" of
write_init_args. -/
def placeholder (key : PyStr) : PyStr := '{' :: (key ++ ['}'])

/-- The content transformation of write_init_args: its loop
`for key, value in variables.items(): content = content.replace(...)`,
each key applied in mapping order to the full current content. -/
def writeInitArgsContent (content : PyStr) (vars : List (PyStr × PyStr)) : PyStr :=
  vars.foldl (fun c kv => pyReplace (placeholder kv.1) kv.2 c) content

/-- A pattern that occurs nowhere in the subject is left to pass through
str.replace unchanged. -/
theorem pyReplace_of_not_occursIn (pat rep : PyStr) :
    ∀ s : PyStr, occursIn pat s = false → pyReplace pat rep s = s := by
  intro s
  induction s with
  | nil =>
    intro h
    simp only [occursIn, List.isEmpty_iff] at h
    rw [pyReplace, if_neg (by simp [h])]
  | cons c rest ih =>
    intro h
    simp only [occursIn, Bool.or_eq_false_iff] at h
    obtain ⟨hpre, hrest⟩ := h
    have hne : pat.isEmpty = false := by
      cases pat with
      | nil => simp [startsWith] at hpre
      | cons p ps => rfl
    rw [pyReplace, dif_neg (by simp [hpre]), if_neg (by simp [hne]), ih hrest]

/-- The last path component of a POSIX path string, the pathlib Path(p).name
used by Path(template_path).stem (trailing-slash normalisation of pathlib is
not exercised by the helper, which always builds dir/name.ext paths). -/
def lastComponent (p : PyStr) : PyStr :=
  ((p.reverse.takeWhile (fun c => c ≠ '/')).reverse)

/-- The index of the last occurrence of a character (Python str.rfind,
returning none where Python returns -1). -/
def pyRfind (ch : Char) : PyStr → Option Nat
  | [] => none
  | x :: xs =>
    match pyRfind ch xs with
    | some i => some (i + 1)
    | none => if x = ch then some 0 else none

/-- pathlib Path(p).stem: the final component minus its suffix, where the
suffix starts at the last dot only if that dot is neither the first nor the
last character of the name. -/
def pyStem (p : PyStr) : PyStr :=
  let nm := lastComponent p
  match pyRfind '.' nm with
  | none => nm
  | some i => if 0 < i ∧ i < nm.length - 1 then nm.take i else nm

/-- The filesystem as an association list from path to file content. -/
abbrev Fs := List (PyStr × PyStr)

/-- The output path of write_init_args: args_dir / (stem + ".candid"),
where args_dir models the fixed output directory (".tmp_args" in
tests/helper_test.py, BASE_DIR / "args" in testing/tests/helper_test.py). -/
def outputPath (args_dir template_path : PyStr) : PyStr :=
  args_dir ++ '/' :: (pyStem template_path ++ ['.', 'c', 'a', 'n', 'd', 'i', 'd'])

/-- write_init_args of tests/helper_test.py and testing/tests/helper_test.py:
aborts (exit(1), modelled as none) when template_path is falsy or the file
does not exist; otherwise reads the template, substitutes each placeholder in
mapping order, and overwrites the output file with the result. -/
def write_init_args (fs : Fs) (args_dir : PyStr) (template_path : Option PyStr)
    (vars : List (PyStr × PyStr)) : Option Fs :=
  match template_path with
  | none => none
  | some tp =>
    if tp.isEmpty then none
    else
      match dictLookup fs tp with
      | none => none
      | some content =>
        some (dictSet fs (outputPath args_dir tp) (writeInitArgsContent content vars))

/-- C1 counterexample: template content "\x7ba\x7d" with the mapping
a ↦ "\x7bb\x7d", b ↦ "X" renders to "X": the later key b does re-scan and
expand the token that the earlier key a substituted in, contradicting the
claim that the rendered content would still be "\x7bb\x7d". -/
theorem c1_counterexample :
    writeInitArgsContent ['{', 'a', '}'] [(['a'], ['{', 'b', '}']), (['b'], ['X'])] = ['X'] ∧
    (['X'] : PyStr) ≠ ['{', 'b', '}'] := by
  constructor
  · show pyReplace ('{' :: (['b'] ++ ['}'])) ['X']
        (pyReplace ('{' :: (['a'] ++ ['}'])) ['{', 'b', '}'] ('{' :: (['a'] ++ ['}']))) = ['X']
    rw [pyReplace_self]
    exact pyReplace_self '{' (['b'] ++ ['}']) ['X']
  · decide

/-- C1 amended: write_init_args substitutes every occurrence of each key
placeholder with its value, in mapping order, where each substitution is
applied to the entire content produced by the previous substitutions
(later keys DO re-scan earlier substitutions output); in particular an
earlier replacement value that contains a later key placeholder is expanded
by the later key. -/
theorem c1_substitution_in_order (content k v : PyStr) (rest : List (PyStr × PyStr))
    (a b va vb : PyStr) :
    writeInitArgsContent content ((k, v) :: rest) =
      writeInitArgsContent (pyReplace (placeholder k) v content) rest ∧
    writeInitArgsContent (placeholder a) [(a, va), (b, vb)] =
      pyReplace (placeholder b) vb va ∧
    writeInitArgsContent (placeholder a) [(a, placeholder b), (b, vb)] = vb := by
  refine ⟨rfl, ?_, ?_⟩
  · show pyReplace (placeholder b) vb
        (pyReplace ('{' :: (a ++ ['}'])) va ('{' :: (a ++ ['}']))) = pyReplace (placeholder b) vb va
    rw [pyReplace_self]
  · show pyReplace ('{' :: (b ++ ['}'])) vb
        (pyReplace ('{' :: (a ++ ['}'])) (placeholder b) ('{' :: (a ++ ['}']))) = vb
    rw [pyReplace_self]
    exact pyReplace_self '{' (b ++ ['}']) vb

/-- C7: a placeholder key whose token occurs nowhere in the template content
leaves the content unchanged under that key substitution, and raises no
error (pyReplace is total). -/
theorem c7_absent_key_identity (key value content : PyStr)
    (h : occursIn (placeholder key) content = false) :
    pyReplace (placeholder key) value content = content ∧
    writeInitArgsContent content [(key, value)] = content := by
  have hid := pyReplace_of_not_occursIn (placeholder key) value content h
  exact ⟨hid, hid⟩

/-- C7 witness at a concrete input: key "a" does not occur in "hi". -/
theorem c7_absent_key_identity_witness :
    pyReplace (placeholder ['a']) ['z'] ['h', 'i'] = ['h', 'i'] ∧
    writeInitArgsContent ['h', 'i'] [(['a'], ['z'])] = ['h', 'i'] :=
  c7_absent_key_identity ['a'] ['z'] ['h', 'i'] (by decide)

/-- C6: rendering is a deterministic function of the template content and
the mapping: any two runs of write_init_args whose template files hold the
same content and which use the same mapping write byte-identical content to
their output files, regardless of the rest of the filesystem or the
directories involved. -/
theorem c6_render_deterministic (fs₁ fs₂ : Fs) (d₁ d₂ tp₁ tp₂ c : PyStr)
    (vars : List (PyStr × PyStr)) (fs₁' fs₂' : Fs)
    (h₁ : dictLookup fs₁ tp₁ = some c) (h₂ : dictLookup fs₂ tp₂ = some c)
    (e₁ : write_init_args fs₁ d₁ (some tp₁) vars = some fs₁')
    (e₂ : write_init_args fs₂ d₂ (some tp₂) vars = some fs₂') :
    dictLookup fs₁' (outputPath d₁ tp₁) = some (writeInitArgsContent c vars) ∧
    dictLookup fs₂' (outputPath d₂ tp₂) = some (writeInitArgsContent c vars) ∧
    dictLookup fs₁' (outputPath d₁ tp₁) = dictLookup fs₂' (outputPath d₂ tp₂) := by
  simp only [write_init_args, h₁, h₂] at e₁ e₂
  by_cases he₁ : tp₁.isEmpty
  · simp [he₁] at e₁
  by_cases he₂ : tp₂.isEmpty
  · simp [he₂] at e₂
  simp only [he₁, he₂, if_neg, Bool.false_eq_true, ite_false, Option.some.injEq] at e₁ e₂
  subst e₁
  subst e₂
  refine ⟨dictLookup_dictSet _ _ _, dictLookup_dictSet _ _ _, ?_⟩
  rw [dictLookup_dictSet, dictLookup_dictSet]

/-- C6 witness at a concrete input: two runs over distinct filesystems with
the same template content and the empty mapping. -/
theorem c6_render_deterministic_witness :
    dictLookup (dictSet [(['t'], ['h', 'i'])] (outputPath ['a'] ['t']) ['h', 'i'])
        (outputPath ['a'] ['t']) = some (writeInitArgsContent ['h', 'i'] []) ∧
    dictLookup (dictSet [(['u'], ['h', 'i'])] (outputPath ['b'] ['u']) ['h', 'i'])
        (outputPath ['b'] ['u']) = some (writeInitArgsContent ['h', 'i'] []) ∧
    dictLookup (dictSet [(['t'], ['h', 'i'])] (outputPath ['a'] ['t']) ['h', 'i'])
        (outputPath ['a'] ['t']) =
      dictLookup (dictSet [(['u'], ['h', 'i'])] (outputPath ['b'] ['u']) ['h', 'i'])
        (outputPath ['b'] ['u']) :=
  c6_render_deterministic [(['t'], ['h', 'i'])] [(['u'], ['h', 'i'])]
    ['a'] ['b'] ['t'] ['u'] ['h', 'i'] [] _ _ rfl rfl rfl rfl

/-- The dfx commands issued by deploy_canister of
testing/tests/helper_test.py (the canonical rollback-on-failure revision,
per the design notes).  The install command carries its optional
initialization-argument file, matching the two install_cmd strings. -/
inductive DfxCmd
  | create
  | build
  | install (argument_file : Option PyStr)
  | stop
  | delete
deriving DecidableEq

/-- run_command of testing/tests/helper_test.py: executes one command and
returns True iff its exit code is 0 (exceptions also yield False).  The
environment env gives each command its exit status; the command is recorded
in the trace. -/
def run_command (env : DfxCmd → Bool) (c : DfxCmd) : Bool × List DfxCmd :=
  (env c, [c])

/-- The cleanup closure inside deploy_canister: stop then delete,
best-effort (both run_command results are ignored). -/
def cleanup (env : DfxCmd → Bool) : List DfxCmd :=
  (run_command env DfxCmd.stop).2 ++ (run_command env DfxCmd.delete).2

/-- deploy_canister of testing/tests/helper_test.py: create, build, install
in order; on the first failure runs cleanup and returns False; returns True
only when all three commands succeed.  The second component is the trace of
commands issued. -/
def deploy_canister (env : DfxCmd → Bool) (argument_file : Option PyStr) :
    Bool × List DfxCmd :=
  let r₁ := run_command env DfxCmd.create
  if r₁.1 = false then (false, r₁.2 ++ cleanup env)
  else
    let r₂ := run_command env DfxCmd.build
    if r₂.1 = false then (false, r₁.2 ++ r₂.2 ++ cleanup env)
    else
      let r₃ := run_command env (DfxCmd.install argument_file)
      if r₃.1 = false then (false, r₁.2 ++ r₂.2 ++ r₃.2 ++ cleanup env)
      else (true, r₁.2 ++ r₂.2 ++ r₃.2)

/-- The k-th step of the three-step deployment sequence. -/
def deployStep (k : Nat) (argument_file : Option PyStr) : DfxCmd :=
  match k with
  | 0 => DfxCmd.create
  | 1 => DfxCmd.build
  | _ => DfxCmd.install argument_file

/-- C3: when step k of create, build, install is the first step to fail,
the later steps are never invoked, rollback (stop then delete) is invoked
exactly once, and the runner returns failure; the result does not depend on
the exit statuses of the rollback commands (any environment agreeing on the
three deployment steps yields the same result). -/
theorem c3_first_failure_rollback (env : DfxCmd → Bool) (a : Option PyStr) (k : Nat)
    (hk : k < 3) (hfail : env (deployStep k a) = false)
    (hpre : ∀ j, j < k → env (deployStep j a) = true) :
    (deploy_canister env a).1 = false ∧
    (∀ j, k < j → j < 3 → deployStep j a ∉ (deploy_canister env a).2) ∧
    (deploy_canister env a).2.count DfxCmd.stop = 1 ∧
    (deploy_canister env a).2.count DfxCmd.delete = 1 ∧
    List.Sublist [DfxCmd.stop, DfxCmd.delete] (deploy_canister env a).2 ∧
    (∀ env' : DfxCmd → Bool,
      env' DfxCmd.create = env DfxCmd.create →
      env' DfxCmd.build = env DfxCmd.build →
      env' (DfxCmd.install a) = env (DfxCmd.install a) →
      (deploy_canister env' a).1 = (deploy_canister env a).1) := by
  match k with
  | 0 =>
    simp only [deployStep] at hfail
    simp only [deploy_canister, run_command, cleanup, hfail]
    refine ⟨rfl, ?_, by simp [List.count_cons], by simp [List.count_cons], ?_, ?_⟩
    · intro j h0 h3
      match j with
      | 1 => simp [deployStep]
      | 2 => simp [deployStep]
    · simp
    · intro env' h1 h2 h3
      simp [deploy_canister, run_command, h1, hfail]
  | 1 =>
    have hc : env DfxCmd.create = true := hpre 0 (by omega)
    simp only [deployStep] at hfail
    simp only [deploy_canister, run_command, cleanup, hfail, hc]
    refine ⟨rfl, ?_, by simp [List.count_cons], by simp [List.count_cons], ?_, ?_⟩
    · intro j h1 h3
      match j with
      | 2 => simp [deployStep]
    · simp
    · intro env' h1 h2 h3
      simp [deploy_canister, run_command, h1, h2, hc, hfail]
  | 2 =>
    have hc : env DfxCmd.create = true := hpre 0 (by omega)
    have hb : env DfxCmd.build = true := hpre 1 (by omega)
    simp only [deployStep] at hfail
    simp only [deploy_canister, run_command, cleanup, hfail, hc, hb]
    refine ⟨rfl, ?_, by simp [List.count_cons], by simp [List.count_cons], ?_, ?_⟩
    · intro j h2 h3
      omega
    · exact List.Sublist.cons _ (List.Sublist.cons _ (List.Sublist.cons _ (List.Sublist.refl _)))
    · intro env' h1 h2 h3
      simp [deploy_canister, run_command, h1, h2, h3, hc, hb, hfail]

/-- C3 witness at a concrete environment: build is the first failing step. -/
theorem c3_first_failure_rollback_witness :
    (deploy_canister (fun c => decide (c ≠ DfxCmd.build)) none).1 = false ∧
    (deploy_canister (fun c => decide (c ≠ DfxCmd.build)) none).2.count DfxCmd.stop = 1 ∧
    (deploy_canister (fun c => decide (c ≠ DfxCmd.build)) none).2.count DfxCmd.delete = 1 := by
  have h := c3_first_failure_rollback (fun c => decide (c ≠ DfxCmd.build)) none 1
    (by omega) (by decide)
    (by intro j hj; match j with | 0 => decide)
  exact ⟨h.1, h.2.2.1, h.2.2.2.1⟩

/-- C4: deploy_canister returns a boolean that is true iff create, build and
install all succeed, and in the success case the trace is exactly create,
build, install in that order (no skip, no reorder, no partial success). -/
theorem c4_success_iff_all_steps (env : DfxCmd → Bool) (a : Option PyStr) :
    (deploy_canister env a).1 =
      (env DfxCmd.create && env DfxCmd.build && env (DfxCmd.install a)) ∧
    ((deploy_canister env a).1 = true →
      (deploy_canister env a).2 = [DfxCmd.create, DfxCmd.build, DfxCmd.install a]) := by
  cases h1 : env DfxCmd.create <;> cases h2 : env DfxCmd.build <;>
    cases h3 : env (DfxCmd.install a) <;>
      simp [deploy_canister, run_command, cleanup, h1, h2, h3]

/-- C4 witness at a concrete environment where every command succeeds. -/
theorem c4_success_iff_all_steps_witness :
    (deploy_canister (fun _ => true) none).1 = true ∧
    (deploy_canister (fun _ => true) none).2 =
      [DfxCmd.create, DfxCmd.build, DfxCmd.install none] := by
  have h := c4_success_iff_all_steps (fun _ => true) none
  exact ⟨h.1.trans (by decide), h.2 (h.1.trans (by decide))⟩

/-- One console input line, as seen through int(input(...)): either it
parses as an integer, or int() raises ValueError (invalid). -/
inductive MenuInput
  | num (n : Int)
  | invalid
deriving DecidableEq

/-- Canister metadata dict: key to string-or-None value. -/
abbrev Info := List (PyStr × PyVal)

/-- main_menu of helper.py: loops reading inputs until one is an integer
with 0 <= choice <= len(test_scripts); returns None (modelled some none)
on 0 and test_scripts[choice - 1] on a valid positive choice.  The outer
none means the input sequence ran out while the loop was still prompting. -/
def main_menu (test_scripts : List PyStr) : List MenuInput → Option (Option PyStr)
  | [] => none
  | MenuInput.invalid :: rest => main_menu test_scripts rest
  | MenuInput.num choice :: rest =>
    if 0 ≤ choice ∧ choice ≤ test_scripts.length then
      if choice = 0 then some none
      else some (some (test_scripts.getD (choice - 1).toNat []))
    else main_menu test_scripts rest

/-- canister_selection of helper.py: returns None (modelled some none) on
input 0, list(canisters.keys())[choice - 1] when 1 <= choice <= len, and
re-prompts otherwise. -/
def canister_selection (canisters : List (PyStr × Info)) :
    List MenuInput → Option (Option PyStr)
  | [] => none
  | MenuInput.invalid :: rest => canister_selection canisters rest
  | MenuInput.num choice :: rest =>
    if choice = 0 then some none
    else if 1 ≤ choice ∧ choice ≤ canisters.length then
      some (some ((canisters.map Prod.fst).getD (choice - 1).toNat []))
    else canister_selection canisters rest

/-- C8: both menu prompters skip non-numeric inputs and numeric inputs
outside [0, N] (the prompt repeats, nothing is returned for that input),
return the cancel marker exactly on input 0, and return exactly the k-th
listed name on a valid input k in [1, N]. -/
theorem c8_menu_prompters (test_scripts : List PyStr) (canisters : List (PyStr × Info))
    (inputs : List MenuInput) (n : Int) :
    (main_menu test_scripts (MenuInput.invalid :: inputs) = main_menu test_scripts inputs) ∧
    (canister_selection canisters (MenuInput.invalid :: inputs) =
      canister_selection canisters inputs) ∧
    (¬ (0 ≤ n ∧ n ≤ test_scripts.length) →
      main_menu test_scripts (MenuInput.num n :: inputs) = main_menu test_scripts inputs) ∧
    (¬ (0 ≤ n ∧ n ≤ canisters.length) →
      canister_selection canisters (MenuInput.num n :: inputs) =
        canister_selection canisters inputs) ∧
    (main_menu test_scripts (MenuInput.num 0 :: inputs) = some none) ∧
    (canister_selection canisters (MenuInput.num 0 :: inputs) = some none) ∧
    (1 ≤ n → n ≤ test_scripts.length →
      main_menu test_scripts (MenuInput.num n :: inputs) =
        some (some (test_scripts.getD (n - 1).toNat []))) ∧
    (1 ≤ n → n ≤ canisters.length →
      canister_selection canisters (MenuInput.num n :: inputs) =
        some (some ((canisters.map Prod.fst).getD (n - 1).toNat []))) := by
  refine ⟨rfl, rfl, ?_, ?_, ?_, ?_, ?_, ?_⟩
  · intro h
    simp only [main_menu, if_neg h]
  · intro h
    have h0 : ¬ n = 0 := by omega
    have h1 : ¬ (1 ≤ n ∧ n ≤ canisters.length) := by omega
    simp only [canister_selection, if_neg h0, if_neg h1]
  · simp [main_menu]
  · simp [canister_selection]
  · intro h1 h2
    have hrange : 0 ≤ n ∧ n ≤ test_scripts.length := by omega
    have h0 : ¬ n = 0 := by omega
    simp only [main_menu, if_pos hrange, if_neg h0]
  · intro h1 h2
    have h0 : ¬ n = 0 := by omega
    have hp : 1 ≤ n ∧ n ≤ (canisters.length : Int) := ⟨h1, h2⟩
    simp only [canister_selection, if_neg h0, if_pos hp]

/-- C8 witness at concrete inputs: one script, one canister; an invalid
input and the out-of-range input 7 are skipped, 0 cancels, 1 selects the
first listed name. -/
theorem c8_menu_prompters_witness :
    (¬ (0 ≤ (7 : Int) ∧ (7 : Int) ≤ ([['s']] : List PyStr).length) ∧
      main_menu [['s']] [MenuInput.num 7] = main_menu [['s']] []) ∧
    main_menu [['s']] [MenuInput.num 0] = some none ∧
    main_menu [['s']] [MenuInput.num 1] = some (some ['s']) := by
  have h7 := c8_menu_prompters [['s']] [(['c'], [])] [] 7
  have h1 := c8_menu_prompters [['s']] [(['c'], [])] [] 1
  refine ⟨⟨by decide, h7.2.2.1 (by decide)⟩, h1.2.2.2.2.1, ?_⟩
  have := h1.2.2.2.2.2.2.1 (by decide) (by decide)
  simpa using this

/-- Diagnostic printed by load_dfx_json when dfx.json is absent. -/
def warn_dfx_missing : PyStr :=
  ("WARNING: dfx.json FILE NOT FOUND. ENSURE IT EXISTS IN THE PROJECT ROOT.").toList

/-- Diagnostic printed by load_dfx_json when dfx.json fails to parse. -/
def warn_dfx_parse (e : PyStr) : PyStr :=
  ("WARNING: FAILED TO PARSE dfx.json. DETAILS: ").toList ++ e

/-- load_dfx_json of helper.py and testing/helper.py: opens dfx.json
(dfx_file none models FileNotFoundError) and parses it with json.load
(parse_json models it, Except.error the JSONDecodeError).  Returns the
parsed data, or None plus one diagnostic on either failure; no exception
escapes (the function is total). -/
def load_dfx_json {α : Type} (parse_json : PyStr → Except PyStr α)
    (dfx_file : Option PyStr) : Option α × List PyStr :=
  match dfx_file with
  | none => (none, [warn_dfx_missing])
  | some s =>
    match parse_json s with
    | Except.error e => (none, [warn_dfx_parse e])
    | Except.ok d => (some d, [])

/-- C9: load_dfx_json returns the parsed mapping on success (no
diagnostic), and on a missing file or malformed JSON returns None after
emitting exactly one diagnostic; being a total function, it raises nothing
to its caller in either failure case. -/
theorem c9_load_dfx_json {α : Type} (parse_json : PyStr → Except PyStr α)
    (dfx_file : Option PyStr) :
    (dfx_file = none → load_dfx_json parse_json dfx_file = (none, [warn_dfx_missing])) ∧
    (∀ s e, dfx_file = some s → parse_json s = Except.error e →
      load_dfx_json parse_json dfx_file = (none, [warn_dfx_parse e])) ∧
    (∀ s d, dfx_file = some s → parse_json s = Except.ok d →
      load_dfx_json parse_json dfx_file = (some d, [])) := by
  refine ⟨?_, ?_, ?_⟩
  · intro h
    subst h
    rfl
  · intro s e hf hp
    subst hf
    simp [load_dfx_json, hp]
  · intro s d hf hp
    subst hf
    simp [load_dfx_json, hp]

/-- C9 witness at concrete inputs covering all three cases. -/
theorem c9_load_dfx_json_witness :
    load_dfx_json (fun _ => Except.ok (0 : Nat)) none = (none, [warn_dfx_missing]) ∧
    load_dfx_json (fun _ => (Except.error ['e'] : Except PyStr Nat)) (some ['x']) =
      (none, [warn_dfx_parse ['e']]) ∧
    load_dfx_json (fun _ => Except.ok (5 : Nat)) (some ['x']) = (some 5, []) :=
  ⟨(c9_load_dfx_json (fun _ => Except.ok (0 : Nat)) none).1 rfl,
   (c9_load_dfx_json (fun _ => (Except.error ['e'] : Except PyStr Nat)) (some ['x'])).2.1
     ['x'] ['e'] rfl rfl,
   (c9_load_dfx_json (fun _ => Except.ok (5 : Nat)) (some ['x'])).2.2 ['x'] 5 rfl rfl⟩

/-- The counters dict of the test scripts. -/
structure Counters where
  total : Int
  success : Int
  failed : Int
  id : Int
deriving DecidableEq

/-- validate_output of testing/tests/helper_test.py: increments total,
then success or failed according to actual == expected, then id.  (The
tests/helper_test.py revision is identical except that it never increments
id, which the counted fields do not depend on.) -/
def validate_output {α : Type} [DecidableEq α] (test_desc : PyStr)
    (actual expected : α) (counters : Counters) : Counters :=
  let c₁ := { counters with total := counters.total + 1 }
  let c₂ :=
    if actual = expected then { c₁ with success := c₁.success + 1 }
    else { c₁ with failed := c₁.failed + 1 }
  { c₂ with id := c₂.id + 1 }

/-- C10: every call to validate_output increments total by exactly one and
exactly one of success or failed by exactly one (success iff actual equals
expected), so the invariant total = success + failed is preserved. -/
theorem c10_validate_output_counters {α : Type} [DecidableEq α] (test_desc : PyStr)
    (actual expected : α) (c : Counters) :
    (validate_output test_desc actual expected c).total = c.total + 1 ∧
    (actual = expected →
      (validate_output test_desc actual expected c).success = c.success + 1 ∧
      (validate_output test_desc actual expected c).failed = c.failed) ∧
    (actual ≠ expected →
      (validate_output test_desc actual expected c).failed = c.failed + 1 ∧
      (validate_output test_desc actual expected c).success = c.success) ∧
    (c.total = c.success + c.failed →
      (validate_output test_desc actual expected c).total =
        (validate_output test_desc actual expected c).success +
          (validate_output test_desc actual expected c).failed) := by
  by_cases h : actual = expected <;>
    simp [validate_output, h] <;> omega

/-- C10 witness at concrete inputs: a passing and a failing comparison from
the all-zero counters state. -/
theorem c10_validate_output_counters_witness :
    ((validate_output [] (1 : Int) 1 ⟨0, 0, 0, 1⟩).success = 0 + 1 ∧
      (validate_output [] (1 : Int) 1 ⟨0, 0, 0, 1⟩).failed = 0) ∧
    ((validate_output [] (2 : Int) 1 ⟨0, 0, 0, 1⟩).failed = 0 + 1 ∧
      (validate_output [] (2 : Int) 1 ⟨0, 0, 0, 1⟩).success = 0) ∧
    (validate_output [] (1 : Int) 1 ⟨0, 0, 0, 1⟩).total =
      (validate_output [] (1 : Int) 1 ⟨0, 0, 0, 1⟩).success +
        (validate_output [] (1 : Int) 1 ⟨0, 0, 0, 1⟩).failed :=
  ⟨(c10_validate_output_counters [] (1 : Int) 1 ⟨0, 0, 0, 1⟩).2.1 rfl,
   (c10_validate_output_counters [] (2 : Int) 1 ⟨0, 0, 0, 1⟩).2.2.1 (by decide),
   (c10_validate_output_counters [] (1 : Int) 1 ⟨0, 0, 0, 1⟩).2.2.2 (by decide)⟩

/-- One elementary operation of the body of log_execution after the log
file has been opened: a log.write, a print, the two stream closes, and the
process wait. -/
inductive LogOp
  | writeLog
  | printLine
  | closeStdout
  | closeStderr
  | waitProc
deriving DecidableEq

/-- The operations of the streaming part of log_execution of helper.py and
testing/helper.py: the two header writes, then for each stdout line a print
and a log write, then the same for each stderr line. -/
def log_streaming_ops (stdout_lines stderr_lines : List PyStr) : List LogOp :=
  [LogOp.writeLog, LogOp.writeLog]
    ++ (stdout_lines.map (fun _ => [LogOp.printLine, LogOp.writeLog])).flatten
    ++ (stderr_lines.map (fun _ => [LogOp.printLine, LogOp.writeLog])).flatten

/-- The full operation sequence of the log_execution body: the streaming
part followed by stdout.close(), stderr.close(), wait() — which the source
places after the loops, with no try/finally around them. -/
def log_execution_ops (stdout_lines stderr_lines : List PyStr) : List LogOp :=
  log_streaming_ops stdout_lines stderr_lines
    ++ [LogOp.closeStdout, LogOp.closeStderr, LogOp.waitProc]

/-- The observable outcome of one call to log_execution: the operations
that actually ran, whether the log file handle was closed (the with-block
guarantees it on every path), and whether an exception propagated. -/
structure LogExecResult where
  executed : List LogOp
  logFileClosed : Bool
  raised : Bool
deriving DecidableEq

/-- log_execution of helper.py and testing/helper.py: runs the body
operations in order.  failAt gives the index of the first operation whose
underlying I/O raises (none when nothing raises); because the source wraps
only the log file in a with-block and has no try/finally around the
subprocess handling, an exception skips every later operation — including
the close and wait calls — while still closing the log file. -/
def log_execution (stdout_lines stderr_lines : List PyStr) (failAt : Option Nat) :
    LogExecResult :=
  let ops := log_execution_ops stdout_lines stderr_lines
  match failAt with
  | none => ⟨ops, true, false⟩
  | some i => if i < ops.length then ⟨ops.take i, true, true⟩ else ⟨ops, true, false⟩

/-- C2 counterexample: with one stdout line, an exception at operation
index 2 (the print of that line) makes log_execution propagate the
exception with neither stream closed and without waiting on the process,
contradicting the every-exit-path claim. -/
theorem c2_counterexample :
    (log_execution [['x']] [] (some 2)).raised = true ∧
    LogOp.closeStdout ∉ (log_execution [['x']] [] (some 2)).executed ∧
    LogOp.closeStderr ∉ (log_execution [['x']] [] (some 2)).executed ∧
    LogOp.waitProc ∉ (log_execution [['x']] [] (some 2)).executed := by
  decide

/-- Every operation of a per-line print and write block list is a print or
a log write. -/
theorem mem_pw_flatten (ls : List PyStr) (op : LogOp)
    (h : op ∈ (ls.map (fun _ => [LogOp.printLine, LogOp.writeLog])).flatten) :
    op = LogOp.writeLog ∨ op = LogOp.printLine := by
  induction ls with
  | nil => simp at h
  | cons x xs ih =>
    simp only [List.map_cons, List.flatten_cons, List.mem_append, List.mem_cons,
      List.not_mem_nil, or_false] at h
    rcases h with (h | h) | h
    · exact Or.inr h
    · exact Or.inl h
    · exact ih h

/-- Every operation of the streaming part is a print or a log write. -/
theorem mem_log_streaming_ops (stdout_lines stderr_lines : List PyStr) (op : LogOp)
    (h : op ∈ log_streaming_ops stdout_lines stderr_lines) :
    op = LogOp.writeLog ∨ op = LogOp.printLine := by
  simp only [log_streaming_ops, List.mem_append] at h
  rcases h with (h | h) | h
  · simp only [List.mem_cons, List.not_mem_nil, or_false] at h
    rcases h with h | h <;> exact Or.inl h
  · exact mem_pw_flatten stdout_lines op h
  · exact mem_pw_flatten stderr_lines op h

/-- C2 amended: on normal completion of the streaming loops the subprocess
stdout and stderr streams are closed and the process is waited on before
log_execution returns; but on an exception raised during the streaming part
the function propagates it with the streams unclosed and the process not
waited on — only the log file handle (held by the with-block) is closed on
both paths. -/
theorem c2_close_and_wait (stdout_lines stderr_lines : List PyStr)
    (failAt : Option Nat) :
    (failAt = none →
      (log_execution stdout_lines stderr_lines failAt).raised = false ∧
      (log_execution stdout_lines stderr_lines failAt).logFileClosed = true ∧
      LogOp.closeStdout ∈ (log_execution stdout_lines stderr_lines failAt).executed ∧
      LogOp.closeStderr ∈ (log_execution stdout_lines stderr_lines failAt).executed ∧
      LogOp.waitProc ∈ (log_execution stdout_lines stderr_lines failAt).executed) ∧
    (∀ i, failAt = some i →
      i ≤ (log_streaming_ops stdout_lines stderr_lines).length →
      (log_execution stdout_lines stderr_lines failAt).raised = true ∧
      (log_execution stdout_lines stderr_lines failAt).logFileClosed = true ∧
      LogOp.closeStdout ∉ (log_execution stdout_lines stderr_lines failAt).executed ∧
      LogOp.closeStderr ∉ (log_execution stdout_lines stderr_lines failAt).executed ∧
      LogOp.waitProc ∉ (log_execution stdout_lines stderr_lines failAt).executed) := by
  constructor
  · intro h
    subst h
    refine ⟨rfl, rfl, ?_, ?_, ?_⟩ <;>
      simp [log_execution, log_execution_ops]
  · intro i h hle
    subst h
    have hlen : i < (log_execution_ops stdout_lines stderr_lines).length := by
      simp only [log_execution_ops, List.length_append, List.length_cons,
        List.length_nil]
      omega
    have htake : (log_execution_ops stdout_lines stderr_lines).take i =
        (log_streaming_ops stdout_lines stderr_lines).take i := by
      simp only [log_execution_ops]
      rw [List.take_append_of_le_length hle]
    have hmem : ∀ op : LogOp,
        op ∈ (log_execution_ops stdout_lines stderr_lines).take i →
        op = LogOp.writeLog ∨ op = LogOp.printLine := by
      intro op hop
      rw [htake] at hop
      exact mem_log_streaming_ops stdout_lines stderr_lines op
        (List.take_subset i _ hop)
    simp only [log_execution, log_execution_ops] at hlen ⊢
    rw [if_pos hlen]
    refine ⟨rfl, rfl, ?_, ?_, ?_⟩ <;>
      · intro hc
        rcases hmem _ hc with h | h <;> simp at h

/-- C2 witness at concrete inputs: the no-exception run closes and waits;
an exception at index 0 (the first header write) does not. -/
theorem c2_close_and_wait_witness :
    ((log_execution [] [] none).raised = false ∧
      (log_execution [] [] none).logFileClosed = true ∧
      LogOp.closeStdout ∈ (log_execution [] [] none).executed ∧
      LogOp.closeStderr ∈ (log_execution [] [] none).executed ∧
      LogOp.waitProc ∈ (log_execution [] [] none).executed) ∧
    ((log_execution [] [] (some 0)).raised = true ∧
      (log_execution [] [] (some 0)).logFileClosed = true ∧
      LogOp.closeStdout ∉ (log_execution [] [] (some 0)).executed ∧
      LogOp.closeStderr ∉ (log_execution [] [] (some 0)).executed ∧
      LogOp.waitProc ∉ (log_execution [] [] (some 0)).executed) :=
  ⟨(c2_close_and_wait [] [] none).1 rfl,
   (c2_close_and_wait [] [] (some 0)).2 0 rfl (by decide)⟩

/-- The dict key "template_path" that find_template_files attaches. -/
def template_path_key : PyStr :=
  ['t', 'e', 'm', 'p', 'l', 'a', 't', 'e', '_', 'p', 'a', 't', 'h']

/-- The file extension ".template" of candidate template files. -/
def template_ext : PyStr :=
  ['.', 't', 'e', 'm', 'p', 'l', 'a', 't', 'e']

/-- The candidate template path for a canister name:
args_dir / (name + ".template"). -/
def templateCandidate (args_dir name : PyStr) : PyStr :=
  args_dir ++ '/' :: (name ++ template_ext)

/-- find_template_files of helper.py and testing/helper.py: if the
templates directory does not exist, prints a warning and returns with the
canisters dict untouched; otherwise, for each canister name, sets
info["template_path"] to the candidate path when that file exists and to
None when it does not.  fs_exists is the path-existence predicate of the
filesystem (Path.exists). -/
def find_template_files (fs_exists : PyStr → Bool) (args_dir : PyStr)
    (canisters : List (PyStr × Info)) : List (PyStr × Info) :=
  if fs_exists args_dir = false then canisters
  else
    canisters.map (fun c =>
      (c.1, dictSet c.2 template_path_key
        (if fs_exists (templateCandidate args_dir c.1)
         then some (templateCandidate args_dir c.1) else none)))

/-- C5 counterexample: when the templates directory does not exist, the
unit record is returned untouched and carries no template_path entry at
all — not the explicit absent marker None that the claim requires in this
case. -/
theorem c5_counterexample :
    find_template_files (fun _ => false) ['a', 'r', 'g', 's'] [(['c'], [])] =
      [(['c'], [])] ∧
    dictLookup ([] : Info) template_path_key = none ∧
    dictLookup ([] : Info) template_path_key ≠ some none := by
  refine ⟨rfl, rfl, by decide⟩

/-- C5 amended: when the templates directory exists, each unit record
carries the candidate template path iff that file exists on disk, and the
explicit absent marker None when it does not; when the templates directory
itself does not exist, find_template_files returns the unit records
unchanged, attaching no marker. -/
theorem c5_attach_iff_exists (fs_exists : PyStr → Bool) (args_dir : PyStr)
    (canisters : List (PyStr × Info)) :
    (fs_exists args_dir = true →
      ∀ p ∈ find_template_files fs_exists args_dir canisters,
        dictLookup p.2 template_path_key =
          some (if fs_exists (templateCandidate args_dir p.1)
                then some (templateCandidate args_dir p.1) else none)) ∧
    (fs_exists args_dir = false →
      find_template_files fs_exists args_dir canisters = canisters) := by
  constructor
  · intro hdir p hp
    rw [find_template_files, if_neg (by simp [hdir])] at hp
    simp only [List.mem_map] at hp
    obtain ⟨c, hc, rfl⟩ := hp
    exact dictLookup_dictSet _ _ _
  · intro hdir
    rw [find_template_files, if_pos hdir]

/-- C5 witness at a concrete input: the templates directory exists, the
candidate file does not, and the record carries the explicit None marker. -/
theorem c5_attach_iff_exists_witness :
    dictLookup [(template_path_key, (none : PyVal))] template_path_key = some none := by
  have h := (c5_attach_iff_exists
      (fun p => p == (['a', 'r', 'g', 's'] : PyStr)) ['a', 'r', 'g', 's']
      [(['c'], [])]).1 (by decide)
      (⟨['c'], [(template_path_key, (none : PyVal))]⟩) (by decide)
  exact h.trans (by decide)
